import Mathlib

/-!
Verification of `sedac_gpw_parser/plot.py` (class `Plot`, rendering a
country's gridded population data to a PNG map).

Shallow embedding conventions:
* Numeric scalars (corner coordinates, cell size, extents, percentiles) are
  modelled as exact rationals `ℚ`.
* The 2-D population array is a list of rows of rationals; `numpy`'s
  `data.shape` is modelled by the row count and the length of the first row.
* Python strings manipulated by index (the plot folder, the output path) are
  modelled as `List Char`; Python's `s[-1]` on the empty string raises
  `IndexError`, modelled by an explicit error value.
* Filesystem and rendering-library side effects are modelled as traces of
  events; external calls that may raise (`plt.show`, `plt.savefig`) take a
  Boolean outcome parameter describing whether the library call succeeds.
* The external loader `Population` (a collaborator of this file, out of
  scope per the spec) is modelled by passing the loaded grid state directly
  to construction.
-/

/-- State established by the external `Population` loader: the 2-D population
array `self._population` together with `self._llcrnrlon`, `self._llcrnrlat`
and `self._cellsize`. -/
structure PopulationState where
  population : List (List ℚ)
  llcrnrlon : ℚ
  llcrnrlat : ℚ
  cellsize : ℚ
deriving DecidableEq

/-- First component of `data.shape` for the 2-D array `population`. -/
def nRow (g : PopulationState) : ℕ := g.population.length

/-- Second component of `data.shape` for the 2-D array `population`. -/
def nCol (g : PopulationState) : ℕ := (g.population.headD []).length

/-- `Plot._compute_image_extent`: the tuple
`(ll_x, ll_x + n_col * cellsize, ll_y, ll_y + n_row * cellsize)` stored in
`self._img_extent`. -/
def computeImageExtent (g : PopulationState) : ℚ × ℚ × ℚ × ℚ :=
  (g.llcrnrlon, g.llcrnrlon + (nCol g : ℚ) * g.cellsize,
   g.llcrnrlat, g.llcrnrlat + (nRow g : ℚ) * g.cellsize)

/-- The extent formula as the spec words it: for lower-left corner
`(lon0, lat0)`, cell size and shape `(rows, cols)`, the tuple
`(lon0, lon0 + cols*cellsize, lat0, lat0 + rows*cellsize)`. -/
def specImageExtent (lon0 lat0 cellsize : ℚ) (rows cols : ℕ) : ℚ × ℚ × ℚ × ℚ :=
  (lon0, lon0 + (cols : ℚ) * cellsize, lat0, lat0 + (rows : ℚ) * cellsize)

/-- A matplotlib colormap, reduced to the features the code touches: its name
and the optional under-range color installed by `set_under`. -/
structure Colormap where
  name : String
  under : Option String
deriving DecidableEq

/-- `cm.get_cmap(colormap)`: a fresh colormap with no under-range color set.
Validation of the name is performed by matplotlib itself (out of scope);
the model is total on names. -/
def get_cmap (name : String) : Colormap :=
  ⟨name, none⟩

/-- `cmap.set_under(color)`. -/
def set_under (c : Colormap) (color : String) : Colormap :=
  { c with under := some color }

/-- The colormap produced by the body of `Plot.set_colormap`:
`cmap = cm.get_cmap(colormap); cmap.set_under('0.8')`. -/
def mkCmap (colormap : String) : Colormap :=
  set_under (get_cmap colormap) "0.8"

/-- The state of a `Plot` instance after `__init__`. -/
structure PlotState extends PopulationState where
  country_id : ℕ
  plot_folder : List Char
  output_path : List Char
  img_extent : ℚ × ℚ × ℚ × ℚ
  cmap : Colormap
deriving DecidableEq

/-- `Plot.set_colormap`: install `mkCmap colormap` as `self._cmap`. -/
def set_colormap (s : PlotState) (colormap : String) : PlotState :=
  { s with cmap := mkCmap colormap }

/-- The trailing-separator normalization at the top of `Plot.__init__`:
`if plot_folder[-1] != "/": plot_folder += "/"` (on a nonempty folder). -/
def normalizeFolder (folder : List Char) : List Char :=
  if folder.getLast? = some '/' then folder else folder ++ ['/']

/-- Errors construction can raise before reaching the external libraries. -/
inductive InitError where
  | indexError
deriving DecidableEq

/-- Observable side effects of `Plot.__init__`, in order of occurrence. -/
inductive InitEffect where
  | mkdir (path : List Char)
  | loadPopulation (country_id : ℕ)
deriving DecidableEq

/-- `Plot.__init__`. `g` is the grid state the external `Population` loader
produces for a valid `country_id`; `existing` models the set of filesystem
paths for which `os.path.exists` is true. Returns the constructed state (or
the error raised) together with the trace of side effects performed. -/
def plotInit (g : PopulationState) (country_id : ℕ) (plot_folder : List Char)
    (existing : List (List Char)) : Except InitError PlotState × List InitEffect :=
  if plot_folder = [] then
    (Except.error InitError.indexError, [])
  else
    let folder := normalizeFolder plot_folder
    let mkdirTrace := if folder ∈ existing then [] else [InitEffect.mkdir folder]
    let st : PlotState :=
      { toPopulationState := g
        country_id := country_id
        plot_folder := folder
        output_path := folder ++ (Nat.repr country_id).toList ++ ".png".toList
        img_extent := computeImageExtent g
        cmap := mkCmap "Purples" }
    (Except.ok st, mkdirTrace ++ [InitEffect.loadPopulation country_id])

/-- `Plot._add_padding`: expand the stored extent by `padding` times its
width and height on each side before `axs.set_extent`. -/
def addPadding (extent : ℚ × ℚ × ℚ × ℚ) (padding : ℚ) : ℚ × ℚ × ℚ × ℚ :=
  let (ll_x, ur_x, ll_y, ur_y) := extent
  let delta_x := (ur_x - ll_x) * padding
  let delta_y := (ur_y - ll_y) * padding
  (ll_x - delta_x, ur_x + delta_x, ll_y - delta_y, ur_y + delta_y)

/-- The default value of the `padding` parameter of `_add_padding`, `0.025`. -/
def defaultPadding : ℚ := 25 / 1000

/-- Modelled from the spec and numpy's documented default: `np.percentile`
with `q = 90` and linear interpolation. Sort ascending; with `n` values the
virtual index is `h = 0.9 * (n - 1)`; interpolate linearly between the
order statistics at positions `⌊h⌋` and `⌊h⌋ + 1` (since `h ≥ 0`, the floor
is the natural division `9 * (n - 1) / 10`). `np.percentile` is an external
library function; the spec's worked example gives 5.5 on `{1,2,3,4,5,6}`. -/
def percentile90 (xs : List ℚ) : ℚ :=
  let s := xs.insertionSort (· ≤ ·)
  match s with
  | [] => 0
  | _ =>
    let n := s.length
    let h : ℚ := ((9 * (n - 1) : ℕ) : ℚ) / 10
    let i : ℕ := 9 * (n - 1) / 10
    let lo := s.getD i 0
    let hi := s.getD (i + 1) lo
    lo + (h - (i : ℚ)) * (hi - lo)

/-- The color-scale upper bound computed inside `Plot.plot`:
`vmax = np.percentile(data[data > 0], 90)` when `data[data > 0]` is
nonempty, else `vmax = 0`. `data` is the flattened cell values. -/
def computeVmax (data : List ℚ) : ℚ :=
  let positives := data.filter (fun x => 0 < x)
  if positives.length > 0 then percentile90 positives else 0

/-- Width `ur_x - ll_x` of an extent tuple. -/
def extentWidth (extent : ℚ × ℚ × ℚ × ℚ) : ℚ := extent.2.1 - extent.1

/-- Height `ur_y - ll_y` of an extent tuple. -/
def extentHeight (extent : ℚ × ℚ × ℚ × ℚ) : ℚ := extent.2.2.2 - extent.2.2.1

/-- The first expression evaluated by `Plot.plot`:
`8*(ur_x - ll_x)/(ur_y - ll_y)`, the figure width. Division by an exact
zero height is undefined and raises. -/
def figWidth (extent : ℚ × ℚ × ℚ × ℚ) : Option ℚ :=
  if extentHeight extent = 0 then none
  else some (8 * extentWidth extent / extentHeight extent)

/-- Steps of `Plot.plot` observable through the rendering library, in
program order. -/
inductive RenderStep where
  | figureCreated
  | borderDrawn
  | coastlinesDrawn
  | paddingApplied
  | rasterDrawn
  | colorbarDrawn
  | titleSet
  | displayed
  | saved
  | closed
deriving DecidableEq

/-- Errors a render call can surface. -/
inductive RenderError where
  | zeroDivisionError
  | libraryError
deriving DecidableEq

/-- The drawing steps `Plot.plot` performs between figure creation and the
final show/save/close tail, in program order. -/
def drawSteps : List RenderStep :=
  [RenderStep.figureCreated, RenderStep.borderDrawn, RenderStep.coastlinesDrawn,
   RenderStep.paddingApplied, RenderStep.rasterDrawn, RenderStep.colorbarDrawn,
   RenderStep.titleSet]

/-- `Plot.plot` as a trace semantics. `shw` is the `show` parameter; `showOk`
and `saveOk` are the outcomes of the external `plt.show()` and
`plt.savefig(...)` calls (`false` = the library raises there). The body is
straight-line code with no exception handler, so a raise aborts the
remaining statements. Returns the trace of completed steps and the error
that propagates, if any. -/
def plotRender (s : PlotState) (shw showOk saveOk : Bool) :
    List RenderStep × Option RenderError :=
  match figWidth s.img_extent with
  | none => ([], some RenderError.zeroDivisionError)
  | some _ =>
    if shw then
      if showOk then
        if saveOk then
          (drawSteps ++ [RenderStep.displayed, RenderStep.saved, RenderStep.closed], none)
        else
          (drawSteps ++ [RenderStep.displayed], some RenderError.libraryError)
      else
        (drawSteps, some RenderError.libraryError)
    else
      if saveOk then
        (drawSteps ++ [RenderStep.saved, RenderStep.closed], none)
      else
        (drawSteps, some RenderError.libraryError)

/-- A concrete grid used for witnesses: the spec's synthetic 4×4 grid with
corner `(0,0)` and cell size 1. -/
def sampleGrid : PopulationState :=
  { population := [[0, 0, 1, 2], [0, 3, 4, 5], [6, 0, 0, 0], [0, 0, 0, 0]]
    llcrnrlon := 0
    llcrnrlat := 0
    cellsize := 1 }

/-- A concrete constructed plot state used for counterexamples and
witnesses about `plot`. -/
def samplePlot : PlotState :=
  { toPopulationState := sampleGrid
    country_id := 276
    plot_folder := "./plots/".toList
    output_path := "./plots/276.png".toList
    img_extent := computeImageExtent sampleGrid
    cmap := mkCmap "Purples" }

/-- A grid with a negative cell size, refuting the unrestricted extent
invariant. -/
def negCellGrid : PopulationState :=
  { population := [[0]]
    llcrnrlon := 0
    llcrnrlat := 0
    cellsize := -1 }

/-- A grid with zero rows, whose extent has zero height. -/
def zeroRowGrid : PopulationState :=
  { population := []
    llcrnrlon := 0
    llcrnrlat := 0
    cellsize := 1 }

/-- The plot state constructed over `zeroRowGrid`. -/
def zeroRowPlot : PlotState :=
  { toPopulationState := zeroRowGrid
    country_id := 4
    plot_folder := "./plots/".toList
    output_path := "./plots/4.png".toList
    img_extent := computeImageExtent zeroRowGrid
    cmap := mkCmap "Purples" }

/-- Claim C1: for every valid country identifier (i.e. every grid the
external loader can return), the extent computed at construction equals
`(lon0, lon0 + cols*cellsize, lat0, lat0 + rows*cellsize)` where
`(lon0, lat0)` is the grid's lower-left corner, `cellsize` its cell size
and `(rows, cols)` its shape. -/
theorem plotInit_extent_eq_spec (g : PopulationState) (country_id : ℕ)
    (plot_folder : List Char) (existing : List (List Char))
    (h : plot_folder ≠ []) :
    ∃ st, (plotInit g country_id plot_folder existing).1 = Except.ok st ∧
      st.img_extent =
        specImageExtent g.llcrnrlon g.llcrnrlat g.cellsize (nRow g) (nCol g) := by
  unfold plotInit
  rw [if_neg h]
  exact ⟨_, rfl, rfl⟩

/-- Witness for C1: construction on the spec's synthetic 4×4 grid yields
the extent `(0, 4, 0, 4)`. -/
theorem plotInit_extent_eq_spec_witness :
    ∃ st, (plotInit sampleGrid 276 "plots".toList []).1 = Except.ok st ∧
      st.img_extent = specImageExtent sampleGrid.llcrnrlon sampleGrid.llcrnrlat
        sampleGrid.cellsize (nRow sampleGrid) (nCol sampleGrid) :=
  plotInit_extent_eq_spec sampleGrid 276 "plots".toList [] (by decide)

/-- Counterexample to claim C2 as stated: with cell size `-1` (the claim
quantifies over any cell size) and a 1×1 grid at the origin, the computed
extent has max-longitude `-1 < 0` = min-longitude. -/
theorem extent_max_ge_min_counterexample :
    ¬ ((computeImageExtent negCellGrid).1 ≤ (computeImageExtent negCellGrid).2.1 ∧
       (computeImageExtent negCellGrid).2.2.1 ≤ (computeImageExtent negCellGrid).2.2.2) := by
  have hx : computeImageExtent negCellGrid = (0, -1, 0, -1) := by
    norm_num [computeImageExtent, negCellGrid, nCol, nRow]
  rw [hx]
  intro hc
  exact absurd hc.1 (by norm_num)

/-- Claim C2 amended: for every grid whose cell size is nonnegative (as for
every grid of the dataset, where the cell size is a positive number of
degrees), the computed extent satisfies max ≥ min on both axes. -/
theorem extent_max_ge_min_of_nonneg_cellsize (g : PopulationState)
    (h : 0 ≤ g.cellsize) :
    (computeImageExtent g).1 ≤ (computeImageExtent g).2.1 ∧
    (computeImageExtent g).2.2.1 ≤ (computeImageExtent g).2.2.2 := by
  constructor <;>
    simpa [computeImageExtent] using
      mul_nonneg (by positivity) h

/-- Witness for C2 (amended): the synthetic 4×4 grid with cell size 1. -/
theorem extent_max_ge_min_witness :
    (computeImageExtent sampleGrid).1 ≤ (computeImageExtent sampleGrid).2.1 ∧
    (computeImageExtent sampleGrid).2.2.1 ≤ (computeImageExtent sampleGrid).2.2.2 :=
  extent_max_ge_min_of_nonneg_cellsize sampleGrid (by decide)

/-- Claim C4: with the default padding `0.025`, `_add_padding` maps the
extent `(ll_x, ur_x, ll_y, ur_y)` with width `W = ur_x - ll_x` and height
`H = ur_y - ll_y` to exactly
`(ll_x - 0.025*W, ur_x + 0.025*W, ll_y - 0.025*H, ur_y + 0.025*H)`. -/
theorem addPadding_default_eq_spec (ll_x ur_x ll_y ur_y : ℚ) :
    addPadding (ll_x, ur_x, ll_y, ur_y) defaultPadding =
      (ll_x - 25/1000 * (ur_x - ll_x), ur_x + 25/1000 * (ur_x - ll_x),
       ll_y - 25/1000 * (ur_y - ll_y), ur_y + 25/1000 * (ur_y - ll_y)) := by
  simp [addPadding, defaultPadding]
  norm_num
  ring_nf
  simp [and_assoc]

/-- Claim C5: `set_colormap` with a (library-validated) ramp name replaces
the active colormap used by subsequent renders and leaves the computed
extent and the underlying population grid unchanged. -/
theorem set_colormap_frame (s : PlotState) (name : String) :
    (set_colormap s name).cmap = mkCmap name ∧
    (set_colormap s name).cmap.name = name ∧
    (set_colormap s name).img_extent = s.img_extent ∧
    (set_colormap s name).population = s.population ∧
    (set_colormap s name).llcrnrlon = s.llcrnrlon ∧
    (set_colormap s name).llcrnrlat = s.llcrnrlat ∧
    (set_colormap s name).cellsize = s.cellsize :=
  ⟨rfl, rfl, rfl, rfl, rfl, rfl, rfl⟩

/-- Claim C3: in every render call, the color-scale upper bound is 0 when no
cell is strictly positive, and otherwise equals the 90th percentile of the
strictly-positive subset of the cell values. -/
theorem computeVmax_cases (data : List ℚ) :
    ((∀ x ∈ data, x ≤ 0) → computeVmax data = 0) ∧
    ((∃ x ∈ data, 0 < x) →
      computeVmax data = percentile90 (data.filter (fun x => 0 < x))) := by
  constructor
  · intro hall
    have hf : data.filter (fun x => 0 < x) = [] := by
      rw [List.filter_eq_nil_iff]
      intro a ha
      simpa using not_lt.mpr (hall a ha)
    simp [computeVmax, hf]
  · rintro ⟨x, hx, hpos⟩
    have hmem : x ∈ data.filter (fun x => 0 < x) :=
      List.mem_filter.mpr ⟨hx, by simpa using hpos⟩
    have hlen : 0 < (data.filter (fun x => 0 < x)).length :=
      List.length_pos.mpr (List.ne_nil_of_mem hmem)
    simp only [computeVmax]
    rw [if_pos hlen]

/-- Witness for C3: the all-nonpositive branch on `[-1, 0]` and the positive
branch on the flattened synthetic 4×4 grid, whose positive subset
`{1,2,3,4,5,6}` has 90th percentile `5.5`. -/
theorem computeVmax_cases_witness :
    computeVmax [-1, 0] = 0 ∧
    computeVmax [0, 0, 1, 2, 0, 3, 4, 5, 6, 0, 0, 0, 0, 0, 0, 0] =
      percentile90
        (([0, 0, 1, 2, 0, 3, 4, 5, 6, 0, 0, 0, 0, 0, 0, 0] : List ℚ).filter
          (fun x => 0 < x)) ∧
    percentile90
        (([0, 0, 1, 2, 0, 3, 4, 5, 6, 0, 0, 0, 0, 0, 0, 0] : List ℚ).filter
          (fun x => 0 < x)) = 11 / 2 :=
  ⟨(computeVmax_cases [-1, 0]).1 (by intro x hx; fin_cases hx <;> norm_num),
   (computeVmax_cases _).2 ⟨1, by norm_num, by norm_num⟩,
   by norm_num [percentile90, List.insertionSort, List.orderedInsert, List.filter]⟩

/-- Claim C6: every call of `set_colormap` installs the under-range fallback
color `'0.8'` on the newly selected ramp, and the default assignment at
construction (ramp `"Purples"`) does so as well. -/
theorem set_colormap_under_always (s : PlotState) (name : String)
    (g : PopulationState) (country_id : ℕ) (folder : List Char)
    (existing : List (List Char)) (h : folder ≠ []) :
    (set_colormap s name).cmap.under = some "0.8" ∧
    ∃ st, (plotInit g country_id folder existing).1 = Except.ok st ∧
      st.cmap = mkCmap "Purples" ∧ st.cmap.under = some "0.8" := by
  refine ⟨rfl, ?_⟩
  unfold plotInit
  rw [if_neg h]
  exact ⟨_, rfl, rfl, rfl⟩

/-- Witness for C6: switching the sample plot to `"viridis"` and
constructing over the sample grid. -/
theorem set_colormap_under_always_witness :
    (set_colormap samplePlot "viridis").cmap.under = some "0.8" ∧
    ∃ st, (plotInit sampleGrid 276 "plots".toList []).1 = Except.ok st ∧
      st.cmap = mkCmap "Purples" ∧ st.cmap.under = some "0.8" :=
  set_colormap_under_always samplePlot "viridis" sampleGrid 276 "plots".toList []
    (by decide)

/-- Claim C7: for a nonempty output folder, construction normalizes a missing
trailing separator before directory creation — the normalized folder ends in
`'/'` and every directory created is the normalized folder — and the render
target path is the normalized folder followed by the decimal country
identifier and `".png"`. -/
theorem plotInit_normalizes_folder (g : PopulationState) (country_id : ℕ)
    (folder : List Char) (existing : List (List Char)) (h : folder ≠ []) :
    (normalizeFolder folder).getLast? = some '/' ∧
    ∃ st, (plotInit g country_id folder existing).1 = Except.ok st ∧
      st.plot_folder = normalizeFolder folder ∧
      st.output_path =
        normalizeFolder folder ++ (Nat.repr country_id).toList ++ ".png".toList ∧
      (∀ e ∈ (plotInit g country_id folder existing).2,
        e = InitEffect.mkdir (normalizeFolder folder) ∨
        e = InitEffect.loadPopulation country_id) := by
  constructor
  · unfold normalizeFolder
    split
    · next hl => exact hl
    · simp [List.getLast?_concat]
  · unfold plotInit
    rw [if_neg h]
    refine ⟨_, rfl, rfl, rfl, ?_⟩
    intro e he
    rcases List.mem_append.mp he with hm | hm
    · split at hm
      · simp at hm
      · exact Or.inl (List.mem_singleton.mp hm)
    · exact Or.inr (List.mem_singleton.mp hm)

/-- Witness for C7: the spec's example folder `"plots"` is normalized to
`"plots/"`, and the render target for country 276 is `"plots/276.png"`. -/
theorem plotInit_normalizes_folder_witness :
    normalizeFolder "plots".toList = "plots/".toList ∧
    ∃ st, (plotInit sampleGrid 276 "plots".toList []).1 = Except.ok st ∧
      st.plot_folder = normalizeFolder "plots".toList ∧
      st.output_path =
        normalizeFolder "plots".toList ++ (Nat.repr 276).toList ++ ".png".toList ∧
      (∀ e ∈ (plotInit sampleGrid 276 "plots".toList []).2,
        e = InitEffect.mkdir (normalizeFolder "plots".toList) ∨
        e = InitEffect.loadPopulation 276) :=
  ⟨by decide,
   (plotInit_normalizes_folder sampleGrid 276 "plots".toList [] (by decide)).2⟩

/-- Claim C9: constructing with the empty string as output folder fails with
an indexing error at `plot_folder[-1]`, with an empty effect trace: no
directory is created and no data is loaded. -/
theorem plotInit_empty_folder_indexError (g : PopulationState)
    (country_id : ℕ) (existing : List (List Char)) :
    plotInit g country_id [] existing = (Except.error InitError.indexError, []) :=
  rfl

/-- Counterexample to claim C8 as stated: the body of `plot` has no
exception handler, so when `plt.savefig` raises (e.g. unwritable path) the
figure is not closed — `closed` is absent from the trace — and when
`plt.show` raises the figure is neither saved nor closed, so the claimed
unconditional persistence and release fail. -/
theorem plotRender_close_counterexample :
    RenderStep.closed ∉ (plotRender samplePlot false true false).1 ∧
    (plotRender samplePlot false true false).2 = some RenderError.libraryError ∧
    RenderStep.saved ∉ (plotRender samplePlot true false false).1 ∧
    RenderStep.closed ∉ (plotRender samplePlot true false false).1 := by
  have hw : figWidth samplePlot.img_extent =
      some (8 * extentWidth samplePlot.img_extent /
        extentHeight samplePlot.img_extent) := by
    unfold figWidth
    rw [if_neg (by norm_num [extentHeight, samplePlot, computeImageExtent,
      sampleGrid, nRow, nCol])]
  unfold plotRender
  rw [hw]
  simp [drawSteps]

/-- Claim C8 amended: when the optional display and the save succeed, the
render call persists the figure and then releases resources (`closed` ends
the trace); but a rendering-library failure in `show` or `savefig`
propagates and aborts the remaining statements, so after a save failure
resources are not released, and after a display failure the figure is
neither saved nor released. -/
theorem plotRender_tail_semantics (s : PlotState) (shw showOk saveOk : Bool)
    (hH : extentHeight s.img_extent ≠ 0) :
    ((shw = true → showOk = true) → saveOk = true →
      plotRender s shw showOk saveOk =
        (drawSteps ++ (if shw then [RenderStep.displayed] else []) ++
          [RenderStep.saved, RenderStep.closed], none)) ∧
    (saveOk = false →
      RenderStep.closed ∉ (plotRender s shw showOk saveOk).1 ∧
      (plotRender s shw showOk saveOk).2 = some RenderError.libraryError) ∧
    (shw = true → showOk = false →
      RenderStep.saved ∉ (plotRender s shw showOk saveOk).1 ∧
      RenderStep.closed ∉ (plotRender s shw showOk saveOk).1) := by
  have hfw : figWidth s.img_extent =
      some (8 * extentWidth s.img_extent / extentHeight s.img_extent) := by
    unfold figWidth
    rw [if_neg hH]
  unfold plotRender
  rw [hfw]
  cases shw <;> cases showOk <;> cases saveOk <;> simp [drawSteps]

/-- Witness for C8 (amended): on the sample plot with display requested and
both library calls succeeding, the trace ends with save followed by close. -/
theorem plotRender_tail_semantics_witness :
    plotRender samplePlot true true true =
      (drawSteps ++ [RenderStep.displayed] ++
        [RenderStep.saved, RenderStep.closed], none) := by
  have hH : extentHeight samplePlot.img_extent ≠ 0 := by
    norm_num [extentHeight, samplePlot, computeImageExtent, sampleGrid, nRow, nCol]
  have hx := (plotRender_tail_semantics samplePlot true true true hH).1
    (fun _ => rfl) rfl
  simpa using hx

/-- Claim C10: the figure width computed at the start of `plot` is 8 times
the extent width divided by the extent height; a grid with zero rows or
zero cell size yields an extent of zero height, and for a zero-height
extent the division is undefined, so the render call fails there with an
empty trace — before any drawing occurs. -/
theorem plotRender_zero_height (g : PopulationState) (s : PlotState)
    (shw showOk saveOk : Bool) :
    (extentHeight s.img_extent ≠ 0 →
      figWidth s.img_extent =
        some (8 * extentWidth s.img_extent / extentHeight s.img_extent)) ∧
    (nRow g = 0 ∨ g.cellsize = 0 → extentHeight (computeImageExtent g) = 0) ∧
    (extentHeight s.img_extent = 0 →
      plotRender s shw showOk saveOk = ([], some RenderError.zeroDivisionError)) := by
  refine ⟨?_, ?_, ?_⟩
  · intro hH
    unfold figWidth
    rw [if_neg hH]
  · rintro (hz | hz) <;> simp [extentHeight, computeImageExtent, hz]
  · intro hz
    unfold plotRender figWidth
    rw [if_pos hz]

/-- Witness for C10: the zero-row grid has a zero-height extent and its
render call fails with an empty trace. -/
theorem plotRender_zero_height_witness :
    extentHeight (computeImageExtent zeroRowGrid) = 0 ∧
    plotRender zeroRowPlot false true true =
      ([], some RenderError.zeroDivisionError) :=
  ⟨(plotRender_zero_height zeroRowGrid zeroRowPlot false true true).2.1
      (Or.inl (by norm_num [nRow, zeroRowGrid])),
   (plotRender_zero_height zeroRowGrid zeroRowPlot false true true).2.2
      (by norm_num [extentHeight, zeroRowPlot, computeImageExtent, zeroRowGrid,
        nRow, nCol])⟩
